import Mathlib

/-!
Verification development for the ledger state synchronization engine
(`src/services/chain-sync.ts` of the Sovereign Protocol backend).

Byte buffers are modelled as `List Nat` (one entry per byte); strings are
modelled at the byte level as their UTF-8 byte lists; 64-bit on-chain
integers are modelled as `Nat` (unsigned) and `Int` (signed, two's
complement on the wire); `Date` values are modelled as integer
milliseconds; the wall clock is passed explicitly where the code calls
`new Date()`.  Fallible byte reads return `Option` (the JS `Buffer`
accessors throw `RangeError` past the end of the buffer).
-/

namespace ChainSync

/-- Value of a little-endian byte list (least significant byte first). -/
def leToNat : List Nat → Nat
  | [] => 0
  | b :: bs => b + 256 * leToNat bs

/-- Little-endian encoding of `v` on `w` bytes. -/
def natToLE : Nat → Nat → List Nat
  | 0, _ => []
  | w + 1, v => v % 256 :: natToLE w (v / 256)

/-- Read `w` raw bytes at offset `o`; fails when the buffer is shorter than
`o + w` (JS `Buffer` reads throw `ERR_OUT_OF_RANGE` there). -/
def readBytes (data : List Nat) (o w : Nat) : Option (List Nat) :=
  if o + w ≤ data.length then some ((data.drop o).take w) else none

/-- Read a `w`-byte little-endian unsigned integer at offset `o`. -/
def readUInt (data : List Nat) (o w : Nat) : Option Nat :=
  (readBytes data o w).map leToNat

/-- `buf.readUInt8(o)`. -/
def readU8 (d : List Nat) (o : Nat) : Option Nat := readUInt d o 1

/-- `buf.readUInt16LE(o)`. -/
def readU16LE (d : List Nat) (o : Nat) : Option Nat := readUInt d o 2

/-- `buf.readUInt32LE(o)`. -/
def readU32LE (d : List Nat) (o : Nat) : Option Nat := readUInt d o 4

/-- `buf.readBigUInt64LE(o)`. -/
def readU64LE (d : List Nat) (o : Nat) : Option Nat := readUInt d o 8

/-- Reinterpret an unsigned 64-bit value as a signed (two's complement) one. -/
def toI64 (n : Nat) : Int := if n < 2 ^ 63 then (n : Int) else (n : Int) - 2 ^ 64

/-- `buf.readBigInt64LE(o)`. -/
def readI64LE (d : List Nat) (o : Nat) : Option Int := (readUInt d o 8).map toI64

/-- `buf.readUInt8(o) !== 0`: any nonzero byte is `true`. -/
def readBool (d : List Nat) (o : Nat) : Option Bool := (readU8 d o).map (· != 0)

/-- `new PublicKey(buf.subarray(o, o + 32))`: the 32 raw bytes (the
constructor rejects a truncated slice). -/
def readPubkey (d : List Nat) (o : Nat) : Option (List Nat) := readBytes d o 32

/-- Strip trailing NUL bytes (the decoder's `.replace(/\0+$/, '')`). -/
def stripNul (s : List Nat) : List Nat := (s.reverse.dropWhile (· == 0)).reverse

/-- Read a Borsh string: 4-byte little-endian length prefix + that many
bytes, trailing NULs stripped.  Returns the bytes and the total width
consumed.  `buf.subarray` silently truncates, so no bound is checked on the
payload itself. -/
def readString (d : List Nat) (o : Nat) : Option (List Nat × Nat) :=
  (readU32LE d o).map fun len => (stripNul ((d.drop (o + 4)).take len), 4 + len)

/-- Read `Option<i64>`: 1-byte tag (`0` = None, nonzero = Some) followed by
8 bytes when present.  Returns the value and the width consumed. -/
def readOptionI64 (d : List Nat) (o : Nat) : Option (Option Int × Nat) := do
  let tag ← readU8 d o
  if tag = 0 then pure (none, 1)
  else do
    let v ← readI64LE d (o + 1)
    pure (some v, 9)

/-- The decoded `SovereignState` account, field for field as in the source's
`ParsedSovereignState`. -/
structure ParsedSovereignState where
  sovereignId : Nat
  creator : List Nat
  tokenMint : List Nat
  sovereignType : Nat
  state : Nat
  name : List Nat
  tokenName : List Nat
  tokenSymbol : List Nat
  metadataUri : List Nat
  bondTarget : Nat
  bondDeadline : Int
  bondDuration : Int
  totalDeposited : Nat
  depositorCount : Nat
  creatorEscrow : Nat
  tokenSupplyDeposited : Nat
  tokenTotalSupply : Nat
  sellFeeBps : Nat
  feeMode : Nat
  feeControlRenounced : Bool
  creationFeeEscrowed : Nat
  swapFeeBps : Nat
  recoveryTarget : Nat
  totalSolFeesDistributed : Nat
  recoveryComplete : Bool
  activeProposalId : Nat
  proposalCount : Nat
  hasActiveProposal : Bool
  totalFeesCollected : Nat
  totalRecovered : Nat
  genesisNftMint : List Nat
  unwoundAt : Option Int
  lastActivity : Int
  activityCheckInitiated : Bool
  activityCheckInitiatedAt : Option Int
  activityCheckTimestamp : Int
  unwindSolBalance : Nat
  unwindTokenBalance : Nat
  lastActivityTimestamp : Int
  createdAt : Int
  finalizedAt : Int
  bump : Nat
  deriving Repr, DecidableEq

/-- Sequential fixed-offset decode of one account buffer, mirroring
`deserializeSovereignState` read for read and padding skip for padding
skip.  A failed read (buffer shorter than the cumulative offset) aborts the
whole decode, as the JS `RangeError` would. -/
def deserializeSovereignState (data : List Nat) : Option ParsedSovereignState :=
  let o := 8
  match readU64LE data o with
  | none => none
  | some sovereignId =>
  let o := o + 8
  match readPubkey data o with
  | none => none
  | some creator =>
  let o := o + 32
  match readPubkey data o with
  | none => none
  | some tokenMint =>
  let o := o + 32
  match readU8 data o with
  | none => none
  | some sovereignType =>
  let o := o + 1
  match readU8 data o with
  | none => none
  | some state =>
  let o := o + 1
  match readString data o with
  | none => none
  | some (name, nameBytes) =>
  let o := o + nameBytes
  match readString data o with
  | none => none
  | some (tokenName, tnBytes) =>
  let o := o + tnBytes
  match readString data o with
  | none => none
  | some (tokenSymbol, tsBytes) =>
  let o := o + tsBytes
  match readString data o with
  | none => none
  | some (metadataUri, muBytes) =>
  let o := o + muBytes
  match readU64LE data o with
  | none => none
  | some bondTarget =>
  let o := o + 8
  match readI64LE data o with
  | none => none
  | some bondDeadline =>
  let o := o + 8
  match readI64LE data o with
  | none => none
  | some bondDuration =>
  let o := o + 8
  match readU64LE data o with
  | none => none
  | some totalDeposited =>
  let o := o + 8
  match readU32LE data o with
  | none => none
  | some depositorCount =>
  let o := o + 4
  match readU64LE data o with
  | none => none
  | some creatorEscrow =>
  let o := o + 8
  match readU64LE data o with
  | none => none
  | some tokenSupplyDeposited =>
  let o := o + 8
  match readU64LE data o with
  | none => none
  | some tokenTotalSupply =>
  let o := o + 8
  match readU16LE data o with
  | none => none
  | some sellFeeBps =>
  let o := o + 2
  match readU8 data o with
  | none => none
  | some feeMode =>
  let o := o + 1
  match readBool data o with
  | none => none
  | some feeControlRenounced =>
  let o := o + 1
  match readU64LE data o with
  | none => none
  | some creationFeeEscrowed =>
  let o := o + 8
  -- _pad_amm_config (32 bytes)
  let o := o + 32
  match readU16LE data o with
  | none => none
  | some swapFeeBps =>
  let o := o + 2
  -- Legacy padding: preset(32) + bin_step(2) + active_id(4) + lower_bin(4)
  --   + upper_bin(4) + position_base(32) + pool_state(32) + lb_pair(32)
  --   + position_mint(32) + position(32) + pool_restricted(1)
  let o := o + (32 + 2 + 4 + 4 + 4 + 32 + 32 + 32 + 32 + 32 + 1)
  match readU64LE data o with
  | none => none
  | some recoveryTarget =>
  let o := o + 8
  match readU64LE data o with
  | none => none
  | some totalSolFeesDistributed =>
  let o := o + 8
  -- _pad_token_fees (8 bytes)
  let o := o + 8
  match readBool data o with
  | none => none
  | some recoveryComplete =>
  let o := o + 1
  match readU64LE data o with
  | none => none
  | some activeProposalId =>
  let o := o + 8
  match readU64LE data o with
  | none => none
  | some proposalCount =>
  let o := o + 8
  match readBool data o with
  | none => none
  | some hasActiveProposal =>
  let o := o + 1
  -- _pad_fee_threshold (2 bytes)
  let o := o + 2
  match readU64LE data o with
  | none => none
  | some totalFeesCollected =>
  let o := o + 8
  match readU64LE data o with
  | none => none
  | some totalRecovered =>
  let o := o + 8
  -- _pad_total_supply (8 bytes)
  let o := o + 8
  match readPubkey data o with
  | none => none
  | some genesisNftMint =>
  let o := o + 32
  match readOptionI64 data o with
  | none => none
  | some (unwoundAt, uBytes) =>
  let o := o + uBytes
  match readI64LE data o with
  | none => none
  | some lastActivity =>
  let o := o + 8
  match readBool data o with
  | none => none
  | some activityCheckInitiated =>
  let o := o + 1
  match readOptionI64 data o with
  | none => none
  | some (activityCheckInitiatedAt, aciBytes) =>
  let o := o + aciBytes
  match readI64LE data o with
  | none => none
  | some activityCheckTimestamp =>
  let o := o + 8
  -- fee_growth_snapshot_a (16) + fee_growth_snapshot_b (16)
  --   + activity_check_last_cancelled (8)
  let o := o + (16 + 16 + 8)
  match readU64LE data o with
  | none => none
  | some unwindSolBalance =>
  let o := o + 8
  match readU64LE data o with
  | none => none
  | some unwindTokenBalance =>
  let o := o + 8
  -- token_redemption_pool(8) + circulating_tokens_at_unwind(8)
  --   + token_redemption_deadline(8)
  let o := o + (8 + 8 + 8)
  match readI64LE data o with
  | none => none
  | some lastActivityTimestamp =>
  let o := o + 8
  match readI64LE data o with
  | none => none
  | some createdAt =>
  let o := o + 8
  match readI64LE data o with
  | none => none
  | some finalizedAt =>
  let o := o + 8
  match readU8 data o with
  | none => none
  | some bump =>
  some {
    sovereignId, creator, tokenMint, sovereignType, state,
    name, tokenName, tokenSymbol, metadataUri,
    bondTarget, bondDeadline, bondDuration,
    totalDeposited, depositorCount, creatorEscrow,
    tokenSupplyDeposited, tokenTotalSupply,
    sellFeeBps, feeMode, feeControlRenounced, creationFeeEscrowed,
    swapFeeBps,
    recoveryTarget, totalSolFeesDistributed, recoveryComplete,
    activeProposalId, proposalCount, hasActiveProposal,
    totalFeesCollected, totalRecovered,
    genesisNftMint, unwoundAt, lastActivity,
    activityCheckInitiated, activityCheckInitiatedAt,
    activityCheckTimestamp, unwindSolBalance, unwindTokenBalance,
    lastActivityTimestamp, createdAt, finalizedAt, bump }

/-! Encoding into the documented byte layout (§6 of the spec). -/

/-- The `SovereignState` type discriminator. -/
def DISCRIMINATOR : List Nat := [42, 162, 40, 206, 227, 8, 23, 212]

/-- Encode a Borsh string: 4-byte little-endian length prefix + bytes. -/
def encString (s : List Nat) : List Nat := natToLE 4 s.length ++ s

/-- Encode a signed 64-bit integer as its two's-complement bytes. -/
def encI64 (v : Int) : List Nat := natToLE 8 (v % 2 ^ 64).toNat

/-- Encode a single-byte boolean. -/
def encBool (b : Bool) : List Nat := [if b then 1 else 0]

/-- Encode `Option<i64>`: tag byte then the value bytes when present. -/
def encOptI64 : Option Int → List Nat
  | none => [0]
  | some v => 1 :: natToLE 8 (v % 2 ^ 64).toNat

/-- A reserved/padding block of `n` zero bytes. -/
def pad (n : Nat) : List Nat := List.replicate n 0

/-- Serialize a record into the documented account layout: discriminator,
fixed-width scalars, four length-prefixed strings, tagged optional i64
fields, and every reserved block at its documented width. -/
def encodeSovereignState (r : ParsedSovereignState) : List Nat :=
  DISCRIMINATOR ++
  (natToLE 8 r.sovereignId ++
  (r.creator ++
  (r.tokenMint ++
  ([r.sovereignType] ++
  ([r.state] ++
  (encString r.name ++
  (encString r.tokenName ++
  (encString r.tokenSymbol ++
  (encString r.metadataUri ++
  (natToLE 8 r.bondTarget ++
  (encI64 r.bondDeadline ++
  (encI64 r.bondDuration ++
  (natToLE 8 r.totalDeposited ++
  (natToLE 4 r.depositorCount ++
  (natToLE 8 r.creatorEscrow ++
  (natToLE 8 r.tokenSupplyDeposited ++
  (natToLE 8 r.tokenTotalSupply ++
  (natToLE 2 r.sellFeeBps ++
  ([r.feeMode] ++
  (encBool r.feeControlRenounced ++
  (natToLE 8 r.creationFeeEscrowed ++
  (pad 32 ++
  (natToLE 2 r.swapFeeBps ++
  (pad (32 + 2 + 4 + 4 + 4 + 32 + 32 + 32 + 32 + 32 + 1) ++
  (natToLE 8 r.recoveryTarget ++
  (natToLE 8 r.totalSolFeesDistributed ++
  (pad 8 ++
  (encBool r.recoveryComplete ++
  (natToLE 8 r.activeProposalId ++
  (natToLE 8 r.proposalCount ++
  (encBool r.hasActiveProposal ++
  (pad 2 ++
  (natToLE 8 r.totalFeesCollected ++
  (natToLE 8 r.totalRecovered ++
  (pad 8 ++
  (r.genesisNftMint ++
  (encOptI64 r.unwoundAt ++
  (encI64 r.lastActivity ++
  (encBool r.activityCheckInitiated ++
  (encOptI64 r.activityCheckInitiatedAt ++
  (encI64 r.activityCheckTimestamp ++
  (pad (16 + 16 + 8) ++
  (natToLE 8 r.unwindSolBalance ++
  (natToLE 8 r.unwindTokenBalance ++
  (pad (8 + 8 + 8) ++
  (encI64 r.lastActivityTimestamp ++
  (encI64 r.createdAt ++
  (encI64 r.finalizedAt ++
  [r.bump]))))))))))))))))))))))))))))))))))))))))))))))))

/-- Bounds of a signed 64-bit value. -/
def i64Range (v : Int) : Prop := -(2 ^ 63) ≤ v ∧ v < 2 ^ 63

instance : DecidablePred i64Range := fun v => by unfold i64Range; infer_instance

/-- A byte string field is valid when its length fits the u32 prefix, every
entry is a byte, and it carries no trailing NUL (the decoder strips those). -/
def validStr (s : List Nat) : Prop :=
  s.length < 2 ^ 32 ∧ s.all (· < 256) = true ∧ s.getLast? ≠ some 0

instance : DecidablePred validStr := fun s => by unfold validStr; infer_instance

/-- A 32-byte address field. -/
def validKey (k : List Nat) : Prop := k.length = 32 ∧ k.all (· < 256) = true

instance : DecidablePred validKey := fun k => by unfold validKey; infer_instance

/-- Valid field values: every scalar within its wire width, addresses of 32
bytes, strings NUL-trimmed with a representable length, optional values in
i64 range. -/
def validRecord (r : ParsedSovereignState) : Prop :=
  r.sovereignId < 2 ^ 64 ∧ validKey r.creator ∧ validKey r.tokenMint ∧
  r.sovereignType < 256 ∧ r.state < 256 ∧
  validStr r.name ∧ validStr r.tokenName ∧ validStr r.tokenSymbol ∧
  validStr r.metadataUri ∧
  r.bondTarget < 2 ^ 64 ∧ i64Range r.bondDeadline ∧ i64Range r.bondDuration ∧
  r.totalDeposited < 2 ^ 64 ∧ r.depositorCount < 2 ^ 32 ∧
  r.creatorEscrow < 2 ^ 64 ∧
  r.tokenSupplyDeposited < 2 ^ 64 ∧ r.tokenTotalSupply < 2 ^ 64 ∧
  r.sellFeeBps < 2 ^ 16 ∧ r.feeMode < 256 ∧ r.creationFeeEscrowed < 2 ^ 64 ∧
  r.swapFeeBps < 2 ^ 16 ∧
  r.recoveryTarget < 2 ^ 64 ∧ r.totalSolFeesDistributed < 2 ^ 64 ∧
  r.activeProposalId < 2 ^ 64 ∧ r.proposalCount < 2 ^ 64 ∧
  r.totalFeesCollected < 2 ^ 64 ∧ r.totalRecovered < 2 ^ 64 ∧
  validKey r.genesisNftMint ∧
  (∀ v ∈ r.unwoundAt, i64Range v) ∧ i64Range r.lastActivity ∧
  (∀ v ∈ r.activityCheckInitiatedAt, i64Range v) ∧
  i64Range r.activityCheckTimestamp ∧
  r.unwindSolBalance < 2 ^ 64 ∧ r.unwindTokenBalance < 2 ^ 64 ∧
  i64Range r.lastActivityTimestamp ∧ i64Range r.createdAt ∧
  i64Range r.finalizedAt ∧ r.bump < 256

instance : DecidablePred validRecord := fun r => by
  unfold validRecord; infer_instance

/-! Reconciler: labels, derived fields and the Mongo upsert
(`upsertSovereign`), modelled over a store keyed by the 32-byte owning
address (base58 rendering of a key is injective, so keying by the raw bytes
is equivalent). -/

/-- Lifecycle status labels, indexed by the on-chain status code. -/
def STATUS_LABELS : List String :=
  ["Bonding", "Finalizing", "PoolCreated", "Recovery", "Active",
   "Unwinding", "Unwound", "Failed", "Halted", "Retired"]

/-- Sovereign type labels, indexed by the on-chain type code. -/
def TYPE_LABELS : List String := ["TokenLaunch", "BYOToken"]

/-- `STATUS_LABELS[idx] ?? 'Unknown'`. -/
def statusLabel (idx : Nat) : String := (STATUS_LABELS[idx]?).getD "Unknown"

/-- `TYPE_LABELS[idx] ?? 'TokenLaunch'`. -/
def typeLabel (idx : Nat) : String := (TYPE_LABELS[idx]?).getD "TokenLaunch"

/-- `tsToDate`: a positive Unix-seconds timestamp becomes a `Date` (modelled
as milliseconds), anything else is `undefined`. -/
def tsToDate (ts : Int) : Option Int := if ts > 0 then some (ts * 1000) else none

/-- UTF-8 bytes of the template string `Sovereign #${id}`. -/
def fallbackName (id : Nat) : List Nat :=
  ("Sovereign #".data ++ Nat.toDigits 10 id).map Char.toNat

/-- JS `Math.round(s / d)` for a positive divisor `d`: the floor of
`s / d + 1 / 2` (halves round toward positive infinity). -/
def mathRound (s : Int) (d : Int) : Int := Int.fdiv (2 * s + d) (2 * d)

/-- An owning address: 32 raw bytes. -/
abbrev Addr := List Nat

/-- One stored `Sovereign` document: exactly the paths of the Mongoose
schema.  The fields up to `unwoundAt` are the ones the sync `$set` can
write; the rest are schema fields the sync never touches (including the
`timestamps: true` bookkeeping pair).  The `$set` also names
`feeControlRenounced`, `metadataUri` and `totalRecovered`, but those are
not schema paths, so strict mode strips them from every update and no such
field ever exists on a stored document. -/
structure StoredRow where
  sovereignId : Nat
  name : List Nat
  creator : Addr
  tokenMint : Addr
  sovereignType : String
  tokenSymbol : Option (List Nat)
  tokenName : Option (List Nat)
  tokenDecimals : Nat
  tokenSupplyDeposited : Nat
  tokenTotalSupply : Nat
  bondTarget : Nat
  bondDeadline : Int
  bondDurationDays : Int
  status : String
  totalDeposited : Nat
  depositorCount : Nat
  sellFeeBps : Nat
  swapFeeBps : Nat
  creationFeeEscrowed : Nat
  creatorEscrow : Nat
  totalGorFeesCollected : Nat
  totalGorFeesDistributed : Nat
  recoveryTarget : Nat
  recoveryComplete : Bool
  unwindGorBalance : Nat
  unwindTokenBalance : Nat
  activityCheckInitiated : Bool
  activityCheckTimestamp : Option Int
  finalizedAt : Option Int
  unwoundAt : Option Int
  creatorMaxBuyBps : Nat
  totalTokenFeesCollected : Nat
  enginePool : Option (List Nat)
  whirlpool : Option (List Nat)
  positionMint : Option (List Nat)
  lbPair : Option (List Nat)
  position : Option (List Nat)
  permanentLock : Option (List Nat)
  autoUnwindPeriod : Nat
  createdAt : Int
  updatedAt : Int
  deriving Repr, DecidableEq

/-- The document Mongoose builds on an upsert-insert before `$set` is
applied: schema defaults, `createdAt`/`updatedAt` set to the wall clock. -/
def defaultRow (now : Int) : StoredRow where
  sovereignId := 0
  name := []
  creator := []
  tokenMint := []
  sovereignType := ""
  tokenSymbol := none
  tokenName := none
  tokenDecimals := 9
  tokenSupplyDeposited := 0
  tokenTotalSupply := 0
  bondTarget := 0
  bondDeadline := 0
  bondDurationDays := 0
  status := "Bonding"
  totalDeposited := 0
  depositorCount := 0
  sellFeeBps := 0
  swapFeeBps := 30
  creationFeeEscrowed := 0
  creatorEscrow := 0
  totalGorFeesCollected := 0
  totalGorFeesDistributed := 0
  recoveryTarget := 0
  recoveryComplete := false
  unwindGorBalance := 0
  unwindTokenBalance := 0
  activityCheckInitiated := false
  activityCheckTimestamp := none
  finalizedAt := none
  unwoundAt := none
  creatorMaxBuyBps := 100
  totalTokenFeesCollected := 0
  enginePool := none
  whirlpool := none
  positionMint := none
  lbPair := none
  position := none
  permanentLock := none
  autoUnwindPeriod := 7776000
  createdAt := now
  updatedAt := now

/-- The `$set` document of `upsertSovereign` applied to a row.  A `$set`
entry whose computed value is `undefined` (an empty string passed through
`|| undefined`, a non-positive timestamp through `tsToDate`, an absent
`unwoundAt`) is dropped from the update, so the row keeps its previous
value there; the three `$set` entries that are not schema paths
(`feeControlRenounced`, `metadataUri`, `totalRecovered`) are stripped by
strict mode and never reach storage; `timestamps: true` bumps `updatedAt`
to the wall clock. -/
def applySet (now : Int) (p : ParsedSovereignState) (row : StoredRow) : StoredRow :=
  { row with
    sovereignId := p.sovereignId
    name := if p.name = [] then fallbackName p.sovereignId else p.name
    creator := p.creator
    tokenMint := p.tokenMint
    sovereignType := typeLabel p.sovereignType
    tokenSymbol := if p.tokenSymbol = [] then row.tokenSymbol else some p.tokenSymbol
    tokenName := if p.tokenName = [] then row.tokenName else some p.tokenName
    tokenDecimals := 9
    tokenSupplyDeposited := p.tokenSupplyDeposited
    tokenTotalSupply := p.tokenTotalSupply
    bondTarget := p.bondTarget
    bondDeadline := (tsToDate p.bondDeadline).getD now
    bondDurationDays := max 1 (mathRound p.bondDuration 86400)
    status := statusLabel p.state
    totalDeposited := p.totalDeposited
    depositorCount := p.depositorCount
    sellFeeBps := p.sellFeeBps
    swapFeeBps := p.swapFeeBps
    creationFeeEscrowed := p.creationFeeEscrowed
    creatorEscrow := p.creatorEscrow
    totalGorFeesCollected := p.totalFeesCollected
    totalGorFeesDistributed := p.totalSolFeesDistributed
    recoveryTarget := p.recoveryTarget
    recoveryComplete := p.recoveryComplete
    unwindGorBalance := p.unwindSolBalance
    unwindTokenBalance := p.unwindTokenBalance
    activityCheckInitiated := p.activityCheckInitiated
    activityCheckTimestamp :=
      match tsToDate p.activityCheckTimestamp with
      | some d => some d
      | none => row.activityCheckTimestamp
    finalizedAt :=
      match tsToDate p.finalizedAt with
      | some d => some d
      | none => row.finalizedAt
    unwoundAt :=
      match p.unwoundAt with
      | some v =>
        match tsToDate v with
        | some d => some d
        | none => row.unwoundAt
      | none => row.unwoundAt
    updatedAt := now }

/-- The synchronized store: owning address to stored document. -/
abbrev Store : Type := Addr → Option StoredRow

/-- A store with no documents. -/
def emptyStore : Store := fun _ => none

/-- `Sovereign.findOneAndUpdate({publicKey}, {$set}, {upsert: true})`:
insert the schema-default document first when the address is absent, then
apply the `$set`. -/
def upsertSovereign (now : Int) (pda : Addr) (parsed : ParsedSovereignState)
    (store : Store) : Store :=
  fun a =>
    if a = pda then some (applySet now parsed ((store pda).getD (defaultRow now)))
    else store a

/-- One sync cycle over a fetched batch: decode each account, upsert on
success, count successes; a failed decode is caught per account and the
loop continues. -/
def syncOnce (now : Int) : List (Addr × List Nat) → Store → Nat × Store
  | [], store => (0, store)
  | pa :: rest, store =>
    match deserializeSovereignState pa.2 with
    | some parsed =>
      let r := syncOnce now rest (upsertSovereign now pa.1 parsed store)
      (r.1 + 1, r.2)
    | none => syncOnce now rest store

/-! Retry helper (`fetchWithRetry`). -/

/-- Attempt cap of the fetch retry loop. -/
def MAX_RETRIES : Nat := 3

/-- Base backoff delay in milliseconds (5s, 10s, 20s). -/
def BASE_DELAY_MS : Nat := 5000

/-- JS `String.prototype.includes`: substring test. -/
def hasSubstr (pat : List Char) : List Char → Bool
  | [] => pat.isEmpty
  | c :: t => pat.isPrefixOf (c :: t) || hasSubstr pat t

/-- The transient-error classifier: the message contains `503`, `502`,
`429`, `timeout` or `ECONNRESET`. -/
def isRetryable (msg : List Char) : Bool :=
  hasSubstr "503".data msg || hasSubstr "502".data msg ||
  hasSubstr "429".data msg || hasSubstr "timeout".data msg ||
  hasSubstr "ECONNRESET".data msg

/-- The dead-code message after the loop (`throw new Error('Unreachable')`). -/
def unreachableMsg : List Char := "Unreachable".data

/-- The retry loop: the first argument counts loop iterations left (the
`for` loop runs attempts `1..MAX_RETRIES`), then the current attempt number
and the backoff already slept.  `oracle k` is the outcome of the `k`-th RPC
call.  Returns the propagated outcome, the number of the last attempt made,
and the total backoff delay slept. -/
def fetchAux {α : Type} (oracle : Nat → Except (List Char) α) :
    Nat → Nat → Nat → Except (List Char) α × Nat × Nat
  | 0, attempt, delayAcc => (.error unreachableMsg, attempt, delayAcc)
  | remaining + 1, attempt, delayAcc =>
    match oracle attempt with
    | .ok v => (.ok v, attempt, delayAcc)
    | .error e =>
      if isRetryable e && decide (attempt < MAX_RETRIES) then
        fetchAux oracle remaining (attempt + 1)
          (delayAcc + BASE_DELAY_MS * 2 ^ (attempt - 1))
      else
        (.error e, attempt, delayAcc)

/-- `fetchWithRetry`: run the attempt loop from attempt 1. -/
def fetchWithRetry {α : Type} (oracle : Nat → Except (List Char) α) :
    Except (List Char) α × Nat × Nat :=
  fetchAux oracle MAX_RETRIES 1 0

/-! Scheduler (`startChainSync` / `stopChainSync`): the module-level
`pollTimer` variable plus the JS timer queue, as a state machine.  Timer
ids are allocated from `nextId`; `pendingWarmups` are scheduled `setTimeout`
callbacks not yet fired; `intervals` are live `setInterval` timers;
`cycles` counts started sync cycles. -/

structure SchedState where
  pollTimer : Option Nat
  pendingWarmups : List Nat
  intervals : List Nat
  nextId : Nat
  cycles : Nat
  deriving Repr, DecidableEq

/-- The state at module load: no timer, nothing scheduled. -/
def initSched : SchedState :=
  { pollTimer := none, pendingWarmups := [], intervals := [], nextId := 0, cycles := 0 }

/-- `startChainSync`: a no-op when `pollTimer` is set or the program id is
missing; otherwise schedule the 10s warm-up `setTimeout` (which will run
the first cycle and install the interval when it fires). -/
def startChainSync (programIdSet : Bool) (s : SchedState) : SchedState :=
  if s.pollTimer.isSome then s
  else if programIdSet = false then s
  else { s with pendingWarmups := s.pendingWarmups ++ [s.nextId], nextId := s.nextId + 1 }

/-- The warm-up `setTimeout` callback fires: run `syncOnce` and install the
repeating `setInterval`, storing its id in `pollTimer`. -/
def fireWarmup (tid : Nat) (s : SchedState) : SchedState :=
  if tid ∈ s.pendingWarmups then
    { s with
      pendingWarmups := s.pendingWarmups.erase tid
      cycles := s.cycles + 1
      intervals := s.intervals ++ [s.nextId]
      pollTimer := some s.nextId
      nextId := s.nextId + 1 }
  else s

/-- A live `setInterval` timer ticks: run one more cycle. -/
def fireInterval (tid : Nat) (s : SchedState) : SchedState :=
  if tid ∈ s.intervals then { s with cycles := s.cycles + 1 } else s

/-- `stopChainSync`: clear the interval named by `pollTimer`, when set.
The pending warm-up `setTimeout` is not tracked and not cleared. -/
def stopChainSync (s : SchedState) : SchedState :=
  match s.pollTimer with
  | some tid => { s with intervals := s.intervals.erase tid, pollTimer := none }
  | none => s

/-! Layout lemmas: reading a field at the offset where the encoder placed
it recovers the field, and consumes exactly the field's width. -/

theorem natToLE_length (w v : Nat) : (natToLE w v).length = w := by
  induction w generalizing v with
  | zero => rfl
  | succ w ih => simp [natToLE, ih]

theorem leToNat_natToLE {w v : Nat} (h : v < 256 ^ w) :
    leToNat (natToLE w v) = v := by
  induction w generalizing v with
  | zero => simp [natToLE, leToNat]; omega
  | succ w ih =>
    have hdiv : v / 256 < 256 ^ w := by
      rw [Nat.div_lt_iff_lt_mul (by omega)]
      calc v < 256 ^ (w + 1) := h
      _ = 256 ^ w * 256 := by rw [Nat.pow_succ]
    simp [natToLE, leToNat, ih hdiv]
    omega

theorem pad_length (n : Nat) : (pad n).length = n := by
  simp [pad]

theorem encString_length (s : List Nat) : (encString s).length = 4 + s.length := by
  simp [encString, natToLE_length]

theorem encI64_length (v : Int) : (encI64 v).length = 8 := by
  simp [encI64, natToLE_length]

theorem encBool_length (b : Bool) : (encBool b).length = 1 := by
  cases b <;> rfl

/-- Consuming a segment of width `w` advances the cursor by `w`. -/
theorem drop_advance {data seg rest : List Nat} {o w : Nat}
    (hd : data.drop o = seg ++ rest) (hw : seg.length = w) :
    data.drop (o + w) = rest := by
  have h := congrArg (List.drop w) hd
  rw [List.drop_drop] at h
  rwa [List.drop_left' hw] at h

theorem readBytes_of_drop {data seg rest : List Nat} {o w : Nat}
    (hd : data.drop o = seg ++ rest) (hw : seg.length = w) (hpos : 0 < w) :
    readBytes data o w = some seg := by
  have h1 : (data.drop o).length = w + rest.length := by
    rw [hd, List.length_append, hw]
  have h2 : (data.drop o).length = data.length - o := List.length_drop o data
  have hle : o + w ≤ data.length := by omega
  unfold readBytes
  rw [if_pos hle, hd, List.take_left' hw]

theorem readUInt_of_drop {data rest : List Nat} {o w v : Nat}
    (hd : data.drop o = natToLE w v ++ rest) (hv : v < 256 ^ w) (hpos : 0 < w) :
    readUInt data o w = some v := by
  unfold readUInt
  rw [readBytes_of_drop hd (natToLE_length w v) hpos]
  simp [leToNat_natToLE hv]

theorem readU64LE_of_drop {data rest : List Nat} {o v : Nat}
    (hd : data.drop o = natToLE 8 v ++ rest) (hv : v < 2 ^ 64) :
    readU64LE data o = some v :=
  readUInt_of_drop hd (by norm_num at hv ⊢; omega) (by omega)

theorem readU32LE_of_drop {data rest : List Nat} {o v : Nat}
    (hd : data.drop o = natToLE 4 v ++ rest) (hv : v < 2 ^ 32) :
    readU32LE data o = some v :=
  readUInt_of_drop hd (by norm_num at hv ⊢; omega) (by omega)

theorem readU16LE_of_drop {data rest : List Nat} {o v : Nat}
    (hd : data.drop o = natToLE 2 v ++ rest) (hv : v < 2 ^ 16) :
    readU16LE data o = some v :=
  readUInt_of_drop hd (by norm_num at hv ⊢; omega) (by omega)

theorem readU8_of_drop {data rest : List Nat} {o b : Nat}
    (hd : data.drop o = b :: rest) (hb : b < 256) :
    readU8 data o = some b := by
  refine @readUInt_of_drop data rest o 1 b ?_ (by simpa using hb) (by omega)
  rw [hd]; simp [natToLE, Nat.mod_eq_of_lt hb]

theorem readI64LE_of_drop {data rest : List Nat} {o : Nat} {v : Int}
    (hd : data.drop o = encI64 v ++ rest) (hv : i64Range v) :
    readI64LE data o = some v := by
  obtain ⟨hlo, hhi⟩ := hv
  have hm1 : 0 ≤ v % 2 ^ 64 := Int.emod_nonneg v (by norm_num)
  have hm2 : v % 2 ^ 64 < 2 ^ 64 := Int.emod_lt_of_pos v (by norm_num)
  have hu : (v % 2 ^ 64).toNat < 2 ^ 64 := by omega
  unfold readI64LE
  rw [readUInt_of_drop hd (by norm_num at hu ⊢; omega) (by omega)]
  have : toI64 (v % 2 ^ 64).toNat = v := by
    unfold toI64
    split <;> omega
  rw [Option.map_some', this]

theorem readBool_of_drop {data rest : List Nat} {o : Nat} {b : Bool}
    (hd : data.drop o = encBool b ++ rest) :
    readBool data o = some b := by
  have h8 : readU8 data o = some (if b then 1 else 0) := by
    refine @readU8_of_drop data rest o (if b then 1 else 0) ?_ (by cases b <;> norm_num)
    rw [hd]; cases b <;> rfl
  unfold readBool
  rw [h8]
  cases b <;> rfl

theorem readPubkey_of_drop {data pk rest : List Nat} {o : Nat}
    (hd : data.drop o = pk ++ rest) (hk : pk.length = 32) :
    readPubkey data o = some pk :=
  readBytes_of_drop hd hk (by omega)

theorem stripNul_eq_self {s : List Nat} (h : s.getLast? ≠ some 0) :
    stripNul s = s := by
  unfold stripNul
  cases hrev : s.reverse with
  | nil =>
    have : s = [] := by
      have := congrArg List.reverse hrev
      simpa using this
    simp [this]
  | cons b t =>
    have hb : (b == 0) = false := by
      have hlast : s.getLast? = some b := by
        rw [List.getLast?_eq_head?_reverse, hrev]; rfl
      simp only [beq_eq_false_iff_ne, ne_eq]
      intro h0
      exact h (h0 ▸ hlast)
    rw [List.dropWhile_cons, hb]
    simp only [Bool.false_eq_true, if_false]
    rw [← hrev, List.reverse_reverse]

theorem readString_of_drop {data s rest : List Nat} {o : Nat}
    (hd : data.drop o = encString s ++ rest) (hlen : s.length < 2 ^ 32)
    (hnul : s.getLast? ≠ some 0) :
    readString data o = some (s, 4 + s.length) := by
  have hd' : data.drop o = natToLE 4 s.length ++ (s ++ rest) := by
    rw [hd]; simp [encString]
  have h32 : readU32LE data o = some s.length := readU32LE_of_drop hd' hlen
  have hdrop : data.drop (o + 4) = s ++ rest :=
    drop_advance hd' (natToLE_length 4 s.length)
  unfold readString
  rw [h32]
  simp only [Option.map_some']
  rw [hdrop, List.take_left, stripNul_eq_self hnul]

theorem readOptionI64_of_drop {data rest : List Nat} {o : Nat} {x : Option Int}
    (hd : data.drop o = encOptI64 x ++ rest) (hx : ∀ v ∈ x, i64Range v) :
    readOptionI64 data o = some (x, (encOptI64 x).length) := by
  cases x with
  | none =>
    have h8 : readU8 data o = some 0 := by
      refine @readU8_of_drop data rest o 0 ?_ (by norm_num)
      rw [hd]; rfl
    simp [readOptionI64, h8, encOptI64]
  | some v =>
    have hd1 : data.drop o = 1 :: (natToLE 8 (v % 2 ^ 64).toNat ++ rest) := by
      rw [hd]; rfl
    have h8 : readU8 data o = some 1 := readU8_of_drop hd1 (by norm_num)
    have hdrop : data.drop (o + 1) = encI64 v ++ rest :=
      @drop_advance data [1] (encI64 v ++ rest) o 1 (by rw [hd1]; rfl) rfl
    have hi : readI64LE data (o + 1) = some v :=
      readI64LE_of_drop hdrop (hx v rfl)
    simp [readOptionI64, h8, hi, encOptI64, natToLE_length]

theorem singleton_length (a : Nat) : ([a] : List Nat).length = 1 := rfl

/-- C1: for every record composed of valid field values, encoding it into
the documented byte layout (8-byte discriminator, fixed-width scalars, four
4-byte-length-prefixed UTF-8 strings, tagged optional i64 fields, every
reserved block at its exact width) and then running
`deserializeSovereignState` on the result reproduces every field exactly
(valid strings carry no trailing NUL, so stripping is the identity on them,
and optional fields come back present or absent as encoded). -/
theorem c1_roundtrip_deserialize (r : ParsedSovereignState) (hv : validRecord r) :
    deserializeSovereignState (encodeSovereignState r) = some r := by
  obtain ⟨h01, h02, h03, h04, h05, h06, h07, h08, h09, h10, h11, h12, h13, h14,
    h15, h16, h17, h18, h19, h20, h21, h22, h23, h24, h25, h26, h27, h28, h29,
    h30, h31, h32, h33, h34, h35, h36, h37, h38⟩ := hv
  have d1 : (encodeSovereignState r).drop 8 = _ := List.drop_left' rfl
  have e1 := readU64LE_of_drop d1 h01
  have d2 := drop_advance d1 (natToLE_length 8 r.sovereignId)
  have e2 := readPubkey_of_drop d2 h02.1
  have d3 := drop_advance d2 h02.1
  have e3 := readPubkey_of_drop d3 h03.1
  have d4 := drop_advance d3 h03.1
  have e4 := readU8_of_drop d4 h04
  have d5 := drop_advance d4 (singleton_length r.sovereignType)
  have e5 := readU8_of_drop d5 h05
  have d6 := drop_advance d5 (singleton_length r.state)
  have e6 := readString_of_drop d6 h06.1 h06.2.2
  have d7 := drop_advance d6 (encString_length r.name)
  have e7 := readString_of_drop d7 h07.1 h07.2.2
  have d8 := drop_advance d7 (encString_length r.tokenName)
  have e8 := readString_of_drop d8 h08.1 h08.2.2
  have d9 := drop_advance d8 (encString_length r.tokenSymbol)
  have e9 := readString_of_drop d9 h09.1 h09.2.2
  have d10 := drop_advance d9 (encString_length r.metadataUri)
  have e10 := readU64LE_of_drop d10 h10
  have d11 := drop_advance d10 (natToLE_length 8 r.bondTarget)
  have e11 := readI64LE_of_drop d11 h11
  have d12 := drop_advance d11 (encI64_length r.bondDeadline)
  have e12 := readI64LE_of_drop d12 h12
  have d13 := drop_advance d12 (encI64_length r.bondDuration)
  have e13 := readU64LE_of_drop d13 h13
  have d14 := drop_advance d13 (natToLE_length 8 r.totalDeposited)
  have e14 := readU32LE_of_drop d14 h14
  have d15 := drop_advance d14 (natToLE_length 4 r.depositorCount)
  have e15 := readU64LE_of_drop d15 h15
  have d16 := drop_advance d15 (natToLE_length 8 r.creatorEscrow)
  have e16 := readU64LE_of_drop d16 h16
  have d17 := drop_advance d16 (natToLE_length 8 r.tokenSupplyDeposited)
  have e17 := readU64LE_of_drop d17 h17
  have d18 := drop_advance d17 (natToLE_length 8 r.tokenTotalSupply)
  have e18 := readU16LE_of_drop d18 h18
  have d19 := drop_advance d18 (natToLE_length 2 r.sellFeeBps)
  have e19 := readU8_of_drop d19 h19
  have d20 := drop_advance d19 (singleton_length r.feeMode)
  have e20 := readBool_of_drop d20
  have d21 := drop_advance d20 (encBool_length r.feeControlRenounced)
  have e21 := readU64LE_of_drop d21 h20
  have d22 := drop_advance d21 (natToLE_length 8 r.creationFeeEscrowed)
  have d23 := drop_advance d22 (pad_length 32)
  have e22 := readU16LE_of_drop d23 h21
  have d24 := drop_advance d23 (natToLE_length 2 r.swapFeeBps)
  have d25 := drop_advance d24
    (pad_length (32 + 2 + 4 + 4 + 4 + 32 + 32 + 32 + 32 + 32 + 1))
  have e23 := readU64LE_of_drop d25 h22
  have d26 := drop_advance d25 (natToLE_length 8 r.recoveryTarget)
  have e24 := readU64LE_of_drop d26 h23
  have d27 := drop_advance d26 (natToLE_length 8 r.totalSolFeesDistributed)
  have d28 := drop_advance d27 (pad_length 8)
  have e25 := readBool_of_drop d28
  have d29 := drop_advance d28 (encBool_length r.recoveryComplete)
  have e26 := readU64LE_of_drop d29 h24
  have d30 := drop_advance d29 (natToLE_length 8 r.activeProposalId)
  have e27 := readU64LE_of_drop d30 h25
  have d31 := drop_advance d30 (natToLE_length 8 r.proposalCount)
  have e28 := readBool_of_drop d31
  have d32 := drop_advance d31 (encBool_length r.hasActiveProposal)
  have d33 := drop_advance d32 (pad_length 2)
  have e29 := readU64LE_of_drop d33 h26
  have d34 := drop_advance d33 (natToLE_length 8 r.totalFeesCollected)
  have e30 := readU64LE_of_drop d34 h27
  have d35 := drop_advance d34 (natToLE_length 8 r.totalRecovered)
  have d36 := drop_advance d35 (pad_length 8)
  have e31 := readPubkey_of_drop d36 h28.1
  have d37 := drop_advance d36 h28.1
  have e32 := readOptionI64_of_drop d37 h29
  have d38 := drop_advance d37
    (rfl : (encOptI64 r.unwoundAt).length = (encOptI64 r.unwoundAt).length)
  have e33 := readI64LE_of_drop d38 h30
  have d39 := drop_advance d38 (encI64_length r.lastActivity)
  have e34 := readBool_of_drop d39
  have d40 := drop_advance d39 (encBool_length r.activityCheckInitiated)
  have e35 := readOptionI64_of_drop d40 h31
  have d41 := drop_advance d40
    (rfl : (encOptI64 r.activityCheckInitiatedAt).length =
      (encOptI64 r.activityCheckInitiatedAt).length)
  have e36 := readI64LE_of_drop d41 h32
  have d42 := drop_advance d41 (encI64_length r.activityCheckTimestamp)
  have d43 := drop_advance d42 (pad_length (16 + 16 + 8))
  have e37 := readU64LE_of_drop d43 h33
  have d44 := drop_advance d43 (natToLE_length 8 r.unwindSolBalance)
  have e38 := readU64LE_of_drop d44 h34
  have d45 := drop_advance d44 (natToLE_length 8 r.unwindTokenBalance)
  have d46 := drop_advance d45 (pad_length (8 + 8 + 8))
  have e39 := readI64LE_of_drop d46 h35
  have d47 := drop_advance d46 (encI64_length r.lastActivityTimestamp)
  have e40 := readI64LE_of_drop d47 h36
  have d48 := drop_advance d47 (encI64_length r.createdAt)
  have e41 := readI64LE_of_drop d48 h37
  have d49 := drop_advance d48 (encI64_length r.finalizedAt)
  have e42 := readU8_of_drop d49 h38
  simp only [deserializeSovereignState, e1, e2, e3, e4, e5, e6, e7, e8, e9,
    e10, e11, e12, e13, e14, e15, e16, e17, e18, e19, e20, e21, e22, e23,
    e24, e25, e26, e27, e28, e29, e30, e31, e32, e33, e34, e35, e36, e37,
    e38, e39, e40, e41, e42]

/-! Concrete fixtures used by witnesses and counterexamples. -/

/-- A concrete well-formed decoded record (status code 4 = Active, raw
duration 864000 s, numeric id 7). -/
def baseRec : ParsedSovereignState where
  sovereignId := 7
  creator := List.replicate 32 1
  tokenMint := List.replicate 32 2
  sovereignType := 0
  state := 4
  name := [65, 66]
  tokenName := [67]
  tokenSymbol := [68]
  metadataUri := [77, 85]
  bondTarget := 5
  bondDeadline := 1700000000
  bondDuration := 864000
  totalDeposited := 9
  depositorCount := 3
  creatorEscrow := 11
  tokenSupplyDeposited := 12
  tokenTotalSupply := 13
  sellFeeBps := 100
  feeMode := 1
  feeControlRenounced := true
  creationFeeEscrowed := 14
  swapFeeBps := 30
  recoveryTarget := 15
  totalSolFeesDistributed := 16
  recoveryComplete := false
  activeProposalId := 17
  proposalCount := 18
  hasActiveProposal := true
  totalFeesCollected := 19
  totalRecovered := 20
  genesisNftMint := List.replicate 32 3
  unwoundAt := some (-5)
  lastActivity := 21
  activityCheckInitiated := false
  activityCheckInitiatedAt := none
  activityCheckTimestamp := 22
  unwindSolBalance := 23
  unwindTokenBalance := 24
  lastActivityTimestamp := 25
  createdAt := 26
  finalizedAt := 27
  bump := 255

/-- C1 witness: the round trip holds at the concrete record above. -/
theorem c1_roundtrip_witness :
    validRecord baseRec ∧
    deserializeSovereignState (encodeSovereignState baseRec) = some baseRec :=
  ⟨by decide, c1_roundtrip_deserialize baseRec (by decide)⟩

/-- C2: calling `startChainSync` twice in immediate succession — both calls
inside the 10 s warm-up window, before `pollTimer` is ever assigned — passes
the `if (pollTimer)` guard both times, schedules two warm-up timeouts, and
once both fire the process holds two concurrent repeating interval timers
(the spec demands the second start be a no-op leaving exactly one).  When a
warm-up has already fired, the guard does work and the second start is a
no-op. -/
theorem c2_double_start_two_timers :
    (startChainSync true (startChainSync true initSched)).pendingWarmups.length = 2 ∧
    (fireWarmup 1 (fireWarmup 0
      (startChainSync true (startChainSync true initSched)))).intervals.length = 2 ∧
    (startChainSync true (fireWarmup 0
      (startChainSync true initSched))).intervals.length = 1 := by
  decide

/-- C8: `stopChainSync` called during the warm-up delay finds `pollTimer`
still `null` and clears nothing; the pending warm-up timeout later fires,
runs a first cycle and installs the interval, which keeps ticking — cycles
keep starting after stop (the spec demands none do). -/
theorem c8_stop_during_warmup_ineffective :
    (stopChainSync (startChainSync true initSched)).pendingWarmups ≠ [] ∧
    (fireInterval 1 (fireWarmup 0
      (stopChainSync (startChainSync true initSched)))).cycles = 2 := by
  decide

/-- C3 counterexample: a type code outside the enumerated range (2 and up)
is labelled `TokenLaunch`, not `Unknown`, and that label is what the
reconciler stores. -/
theorem c3_type_label_counterexample :
    typeLabel 2 = "TokenLaunch" ∧ typeLabel 2 ≠ "Unknown" ∧
    Option.map StoredRow.sovereignType
      (upsertSovereign 0 [0] { baseRec with sovereignType := 2 } emptyStore [0]) =
      some "TokenLaunch" := by
  refine ⟨by decide, by decide, ?_⟩
  simp [upsertSovereign, applySet]
  decide

/-- C3 amended: an out-of-range status code is stored as the explicit
`Unknown` label, but an out-of-range type code falls back to the default
label `TokenLaunch`; in both cases the record is still upserted rather than
rejected. -/
theorem c3_unknown_code_labels (i j : Nat) (hi : 10 ≤ i) (hj : 2 ≤ j) :
    statusLabel i = "Unknown" ∧ typeLabel j = "TokenLaunch" ∧
    (∀ (now : Int) (pda : Addr) (p : ParsedSovereignState) (store : Store),
      p.state = i → p.sovereignType = j →
      Option.map StoredRow.status (upsertSovereign now pda p store pda) =
        some "Unknown" ∧
      Option.map StoredRow.sovereignType (upsertSovereign now pda p store pda) =
        some "TokenLaunch" ∧
      (upsertSovereign now pda p store pda).isSome = true) := by
  have hs : statusLabel i = "Unknown" := by
    unfold statusLabel
    rw [List.getElem?_eq_none (by simpa [STATUS_LABELS] using hi)]
    rfl
  have ht : typeLabel j = "TokenLaunch" := by
    unfold typeLabel
    rw [List.getElem?_eq_none (by simpa [TYPE_LABELS] using hj)]
    rfl
  refine ⟨hs, ht, ?_⟩
  intro now pda p store hstate htype
  refine ⟨?_, ?_, ?_⟩ <;> simp [upsertSovereign, applySet, hstate, htype, hs, ht]

/-- C3 witness: the amended statement at status code 10 and type code 2. -/
theorem c3_unknown_code_witness : statusLabel 10 = "Unknown" :=
  (c3_unknown_code_labels 10 2 (by decide) (by decide)).1

/-- Round-up day count the claim asserts (`ceil(seconds / 86400)`). -/
def ceilDays (s : Int) : Int := (s + 86399) / 86400

/-- C4 counterexample: a raw duration of 120000 s is stored as 1 day
(`Math.round(120000 / 86400) = 1`), while rounding up as claimed would give
`max 1 (ceil(120000 / 86400)) = 2`. -/
theorem c4_round_counterexample :
    Option.map StoredRow.bondDurationDays
      (upsertSovereign 0 [0] { baseRec with bondDuration := 120000 } emptyStore [0]) =
      some 1 ∧
    max 1 (ceilDays 120000) = 2 := by
  decide

/-- C4 amended: the stored `bondDurationDays` is the raw seconds divided by
86400 rounded to the *nearest* whole number of days (halves toward positive
infinity), floored at 1 day — not rounded up.  The claim's concrete example
still holds: status code 4 with raw duration 864000 s is stored as
`"Active"` with 10 days. -/
theorem c4_duration_round_nearest :
    (∀ (now : Int) (pda : Addr) (p : ParsedSovereignState) (store : Store),
      ∃ k : Int,
        Option.map StoredRow.bondDurationDays (upsertSovereign now pda p store pda) =
          some (max 1 k) ∧
        86400 * k - 43200 ≤ p.bondDuration ∧
        p.bondDuration < 86400 * k + 43200) ∧
    Option.map StoredRow.status (upsertSovereign 0 [0] baseRec emptyStore [0]) =
      some "Active" ∧
    Option.map StoredRow.bondDurationDays (upsertSovereign 0 [0] baseRec emptyStore [0]) =
      some 10 := by
  refine ⟨?_, by decide, by decide⟩
  intro now pda p store
  refine ⟨mathRound p.bondDuration 86400, ?_, ?_, ?_⟩
  · simp [upsertSovereign, applySet]
  · have h1 := Int.fdiv_add_fmod (2 * p.bondDuration + 86400) (2 * 86400)
    have h2 := Int.fmod_nonneg' (2 * p.bondDuration + 86400)
      (b := 2 * 86400) (by norm_num)
    have h3 := Int.fmod_lt_of_pos (2 * p.bondDuration + 86400)
      (b := 2 * 86400) (by norm_num)
    unfold mathRound
    omega
  · have h1 := Int.fdiv_add_fmod (2 * p.bondDuration + 86400) (2 * 86400)
    have h2 := Int.fmod_nonneg' (2 * p.bondDuration + 86400)
      (b := 2 * 86400) (by norm_num)
    have h3 := Int.fmod_lt_of_pos (2 * p.bondDuration + 86400)
      (b := 2 * 86400) (by norm_num)
    unfold mathRound
    omega

/-- C10: a record decoded with an empty name is stored under the template
name `Sovereign #<id>`, and a non-empty decoded name is stored unchanged;
at id 7 the template renders to the UTF-8 bytes of `Sovereign #7`. -/
theorem c10_empty_name_fallback (now : Int) (pda : Addr)
    (p : ParsedSovereignState) (store : Store) :
    Option.map StoredRow.name (upsertSovereign now pda p store pda) =
      some (if p.name = [] then fallbackName p.sovereignId else p.name) ∧
    fallbackName 7 = "Sovereign #7".data.map Char.toNat := by
  constructor
  · unfold upsertSovereign
    rw [if_pos rfl]
    by_cases h : p.name = [] <;> simp [applySet, h]
  · decide

/-- A 503-classified transient error message. -/
def err503 : List Char := "503 Service Unavailable".data

/-- An RPC that fails with a 503 on attempts 1 and 2 and succeeds on 3. -/
def oracle503 : Nat → Except (List Char) Nat :=
  fun k => if k < 3 then .error err503 else .ok 7

/-- C5: the retry loop makes at most 3 attempts; the total backoff slept
after ending on attempt `n` is `5000·(2^(n-1) - 1)` ms (so 5 s before
attempt 2 and another 10 s before attempt 3); the outcome returned is that
of the final attempt; every attempt that was retried had failed with a
transient-classified error; a transient failure ends the loop only at the
attempt cap (anything else propagates immediately); and the concrete
503-twice-then-success run returns the success after 15 s of backoff. -/
theorem c5_retry_policy (oracle : Nat → Except (List Char) Nat) :
    1 ≤ (fetchWithRetry oracle).2.1 ∧ (fetchWithRetry oracle).2.1 ≤ 3 ∧
    (fetchWithRetry oracle).2.2 =
      5000 * (2 ^ ((fetchWithRetry oracle).2.1 - 1) - 1) ∧
    (fetchWithRetry oracle).1 = oracle (fetchWithRetry oracle).2.1 ∧
    (∀ k, 1 ≤ k → k < (fetchWithRetry oracle).2.1 →
      ∃ e, oracle k = .error e ∧ isRetryable e = true) ∧
    (∀ e, oracle (fetchWithRetry oracle).2.1 = .error e → isRetryable e = true →
      (fetchWithRetry oracle).2.1 = 3) ∧
    fetchWithRetry oracle503 = (.ok 7, 3, 15000) := by
  cases h1 : oracle 1 with
  | ok v1 =>
    have hF : fetchWithRetry oracle = (.ok v1, 1, 0) := by
      simp [fetchWithRetry, fetchAux, MAX_RETRIES, h1]
    have hA : (fetchWithRetry oracle).2.1 = 1 := by rw [hF]
    have hD : (fetchWithRetry oracle).2.2 = 0 := by rw [hF]
    have hR : (fetchWithRetry oracle).1 = .ok v1 := by rw [hF]
    rw [hA, hD, hR]
    refine ⟨by decide, by decide, by decide, h1.symm, ?_, ?_, rfl⟩
    · intro k hk1 hk2
      exact absurd hk2 (by omega)
    · intro e he _
      rw [h1] at he
      cases he
  | error e1 =>
    cases hr1 : isRetryable e1 with
    | false =>
      have hF : fetchWithRetry oracle = (.error e1, 1, 0) := by
        simp [fetchWithRetry, fetchAux, MAX_RETRIES, h1, hr1]
      have hA : (fetchWithRetry oracle).2.1 = 1 := by rw [hF]
      have hD : (fetchWithRetry oracle).2.2 = 0 := by rw [hF]
      have hR : (fetchWithRetry oracle).1 = .error e1 := by rw [hF]
      rw [hA, hD, hR]
      refine ⟨by decide, by decide, by decide, h1.symm, ?_, ?_, rfl⟩
      · intro k hk1 hk2
        exact absurd hk2 (by omega)
      · intro e he hre
        rw [h1] at he
        injection he with hee
        subst hee
        simp [hr1] at hre
    | true =>
      cases h2 : oracle 2 with
      | ok v2 =>
        have hF : fetchWithRetry oracle = (.ok v2, 2, 5000) := by
          simp [fetchWithRetry, fetchAux, MAX_RETRIES, BASE_DELAY_MS, h1, hr1, h2]
        have hA : (fetchWithRetry oracle).2.1 = 2 := by rw [hF]
        have hD : (fetchWithRetry oracle).2.2 = 5000 := by rw [hF]
        have hR : (fetchWithRetry oracle).1 = .ok v2 := by rw [hF]
        rw [hA, hD, hR]
        refine ⟨by decide, by decide, by decide, h2.symm, ?_, ?_, rfl⟩
        · intro k hk1 hk2
          have hk : k = 1 := by omega
          subst hk
          exact ⟨e1, h1, hr1⟩
        · intro e he _
          rw [h2] at he
          cases he
      | error e2 =>
        cases hr2 : isRetryable e2 with
        | false =>
          have hF : fetchWithRetry oracle = (.error e2, 2, 5000) := by
            simp [fetchWithRetry, fetchAux, MAX_RETRIES, BASE_DELAY_MS, h1, hr1, h2, hr2]
          have hA : (fetchWithRetry oracle).2.1 = 2 := by rw [hF]
          have hD : (fetchWithRetry oracle).2.2 = 5000 := by rw [hF]
          have hR : (fetchWithRetry oracle).1 = .error e2 := by rw [hF]
          rw [hA, hD, hR]
          refine ⟨by decide, by decide, by decide, h2.symm, ?_, ?_, rfl⟩
          · intro k hk1 hk2
            have hk : k = 1 := by omega
            subst hk
            exact ⟨e1, h1, hr1⟩
          · intro e he hre
            rw [h2] at he
            injection he with hee
            subst hee
            simp [hr2] at hre
        | true =>
          cases h3 : oracle 3 with
          | ok v3 =>
            have hF : fetchWithRetry oracle = (.ok v3, 3, 15000) := by
              simp [fetchWithRetry, fetchAux, MAX_RETRIES, BASE_DELAY_MS,
                h1, hr1, h2, hr2, h3]
            have hA : (fetchWithRetry oracle).2.1 = 3 := by rw [hF]
            have hD : (fetchWithRetry oracle).2.2 = 15000 := by rw [hF]
            have hR : (fetchWithRetry oracle).1 = .ok v3 := by rw [hF]
            rw [hA, hD, hR]
            refine ⟨by decide, by decide, by decide, h3.symm, ?_, ?_, rfl⟩
            · intro k hk1 hk2
              have hk : k = 1 ∨ k = 2 := by omega
              rcases hk with hk | hk <;> subst hk
              · exact ⟨e1, h1, hr1⟩
              · exact ⟨e2, h2, hr2⟩
            · intro _ _ _
              rfl
          | error e3 =>
            have hF : fetchWithRetry oracle = (.error e3, 3, 15000) := by
              simp [fetchWithRetry, fetchAux, MAX_RETRIES, BASE_DELAY_MS,
                h1, hr1, h2, hr2, h3]
            have hA : (fetchWithRetry oracle).2.1 = 3 := by rw [hF]
            have hD : (fetchWithRetry oracle).2.2 = 15000 := by rw [hF]
            have hR : (fetchWithRetry oracle).1 = .error e3 := by rw [hF]
            rw [hA, hD, hR]
            refine ⟨by decide, by decide, by decide, h3.symm, ?_, ?_, rfl⟩
            · intro k hk1 hk2
              have hk : k = 1 ∨ k = 2 := by omega
              rcases hk with hk | hk <;> subst hk
              · exact ⟨e1, h1, hr1⟩
              · exact ⟨e2, h2, hr2⟩
            · intro _ _ _
              rfl

/-- C6: per-account failure isolation in a sync cycle: the upsert count is
exactly the number of accounts whose buffer decodes, and the store ends in
the same state as if only the well-formed accounts had been processed — a
malformed account never aborts the batch.  (A buffer shorter than the first
cumulative read fails decode outright.) -/
theorem c6_malformed_account_isolated (now : Int)
    (accounts : List (Addr × List Nat)) (store : Store) :
    (syncOnce now accounts store).1 =
      (accounts.filter (fun pa => (deserializeSovereignState pa.2).isSome)).length ∧
    (syncOnce now accounts store).2 =
      (syncOnce now
        (accounts.filter (fun pa => (deserializeSovereignState pa.2).isSome))
        store).2 ∧
    (∀ buf : List Nat, buf.length < 16 → deserializeSovereignState buf = none) := by
  refine ⟨?_, ?_, ?_⟩
  · induction accounts generalizing store with
    | nil => rfl
    | cons pa rest ih =>
      cases h : deserializeSovereignState pa.2 with
      | none => simpa [syncOnce, h, List.filter_cons] using ih store
      | some parsed =>
        simpa [syncOnce, h, List.filter_cons]
          using ih (upsertSovereign now pa.1 parsed store)
  · induction accounts generalizing store with
    | nil => rfl
    | cons pa rest ih =>
      cases h : deserializeSovereignState pa.2 with
      | none => simpa [syncOnce, h, List.filter_cons] using ih store
      | some parsed =>
        simpa [syncOnce, h, List.filter_cons]
          using ih (upsertSovereign now pa.1 parsed store)
  · intro buf hlen
    have : readU64LE buf 8 = none := by
      unfold readU64LE readUInt readBytes
      rw [if_neg (by omega)]
      rfl
    simp [deserializeSovereignState, this]

/-- Applying the same `$set` twice to a row gives the same row as applying
it once: every conditional entry branches on the decoded record only. -/
theorem applySet_applySet (now : Int) (p : ParsedSovereignState) (row : StoredRow) :
    applySet now p (applySet now p row) = applySet now p row := by
  unfold applySet
  simp only [StoredRow.mk.injEq]
  repeat' apply And.intro
  all_goals
    first
      | trivial
      | (split_ifs <;> trivial)
      | (cases tsToDate p.activityCheckTimestamp <;> trivial)
      | (cases tsToDate p.finalizedAt <;> trivial)
      | (cases p.unwoundAt with
          | none => trivial
          | some v => cases htv : tsToDate v <;> simp [htv])

/-- C7 counterexample: a record whose `bondDeadline` is non-positive makes
the upsert store the wall-clock time (`tsToDate(..) || new Date()`), and
`timestamps: true` bumps `updatedAt` on every write, so reconciling the
same record a second time at a later instant changes the stored row. -/
theorem c7_twice_ne_once_counterexample :
    upsertSovereign 1000 [0] { baseRec with bondDeadline := 0 }
      (upsertSovereign 0 [0] { baseRec with bondDeadline := 0 } emptyStore) ≠
    upsertSovereign 0 [0] { baseRec with bondDeadline := 0 } emptyStore := by
  intro h
  exact absurd (congrFun h [0]) (by decide)

/-- C7 amended: reconciling the same decoded record twice is idempotent
whenever both applications carry the same wall-clock instant; at different
instants the auto-managed `updatedAt` field, and for a non-positive
`bondDeadline` also the stored `bondDeadline`, take the later clock value. -/
theorem c7_upsert_idempotent_fixed_time (now : Int) (pda : Addr)
    (p : ParsedSovereignState) (store : Store) :
    upsertSovereign now pda p (upsertSovereign now pda p store) =
      upsertSovereign now pda p store := by
  funext a
  by_cases h : a = pda <;> simp [upsertSovereign, h, applySet_applySet]

/-- A pre-existing stored row with manually-set fields the sync `$set`
does not persist. -/
def c9OldRow : StoredRow :=
  { defaultRow 0 with enginePool := some [65], tokenSymbol := some [88] }

/-- A store holding `c9OldRow` under address `[0]`. -/
def c9Store : Store := fun a => if a = [0] then some c9OldRow else none

/-- C9 counterexample: upserting a freshly decoded record (with an empty
token symbol) over an existing row keeps the row's old `enginePool` (a
schema field the `$set` never names) and old `tokenSymbol` (a `$set` entry
dropped because its computed value is `undefined`) — both survive from the
previous row, while a fresh insert of the same record would hold neither. -/
theorem c9_merge_counterexample :
    Option.map StoredRow.enginePool
      (upsertSovereign 5 [0] { baseRec with tokenSymbol := [] } c9Store [0]) =
      some (some [65]) ∧
    Option.map StoredRow.tokenSymbol
      (upsertSovereign 5 [0] { baseRec with tokenSymbol := [] } c9Store [0]) =
      some (some [88]) ∧
    Option.map StoredRow.enginePool
      (upsertSovereign 5 [0] { baseRec with tokenSymbol := [] } emptyStore [0]) =
      some none := by
  decide

/-- C9 amended: the upsert overwrites exactly those `$set` entries that are
schema paths with a defined value; the three `$set` entries that are not
schema paths (`feeControlRenounced`, `metadataUri`, `totalRecovered`) are
stripped by strict mode and never stored at all; `$set` entries computed as
`undefined` (empty optional strings, non-positive or absent timestamps) are
dropped, keeping the previous value; schema fields outside the `$set`
(engine pool, creator max-buy, token-fee total, deprecated LP fields,
auto-unwind period, the insert timestamp) are preserved from the existing
row; other addresses are untouched. -/
theorem c9_set_overwrite (now : Int) (pda : Addr) (p : ParsedSovereignState)
    (store : Store) (old : StoredRow) (hold : store pda = some old) :
    upsertSovereign now pda p store pda = some (applySet now p old) ∧
    (applySet now p old).sovereignId = p.sovereignId ∧
    (applySet now p old).creator = p.creator ∧
    (applySet now p old).tokenMint = p.tokenMint ∧
    (applySet now p old).sovereignType = typeLabel p.sovereignType ∧
    (applySet now p old).status = statusLabel p.state ∧
    (applySet now p old).totalDeposited = p.totalDeposited ∧
    (applySet now p old).depositorCount = p.depositorCount ∧
    (applySet now p old).recoveryComplete = p.recoveryComplete ∧
    (applySet now p old).tokenSymbol =
      (if p.tokenSymbol = [] then old.tokenSymbol else some p.tokenSymbol) ∧
    (applySet now p old).tokenName =
      (if p.tokenName = [] then old.tokenName else some p.tokenName) ∧
    (applySet now p old).enginePool = old.enginePool ∧
    (applySet now p old).creatorMaxBuyBps = old.creatorMaxBuyBps ∧
    (applySet now p old).totalTokenFeesCollected = old.totalTokenFeesCollected ∧
    (applySet now p old).whirlpool = old.whirlpool ∧
    (applySet now p old).autoUnwindPeriod = old.autoUnwindPeriod ∧
    (applySet now p old).createdAt = old.createdAt ∧
    (∀ a, a ≠ pda → upsertSovereign now pda p store a = store a) := by
  refine ⟨?_, rfl, rfl, rfl, rfl, rfl, rfl, rfl, rfl, rfl, rfl, rfl, rfl,
    rfl, rfl, rfl, rfl, ?_⟩
  · simp [upsertSovereign, hold]
  · intro a ha
    simp [upsertSovereign, ha]

/-- C9 witness: the amended overwrite semantics at a concrete record over a
concrete pre-existing row. -/
theorem c9_set_overwrite_witness :
    upsertSovereign 5 [0] { baseRec with tokenSymbol := [] } c9Store [0] =
      some (applySet 5 { baseRec with tokenSymbol := [] } c9OldRow) :=
  (c9_set_overwrite 5 [0] { baseRec with tokenSymbol := [] } c9Store c9OldRow
    (by decide)).1

end ChainSync
